import Mathlib

/-!
Verification of the identifier-extraction and lookup pipeline of
streamlit_app.py.

The file shallowly embeds the two pure functions of the source,
extract_tiktok_usernames and query_database, and proves or refutes the
frozen claims about them.  Regular-expression matching is embedded as
explicit prefix matching on character lists; the pandas left merge is
embedded as mergeRows; cell values of the tabular dataset are embedded
by the inductive type Value.
-/

/-- The character class of both grammars in extract_tiktok_usernames:
A-Z, a-z, 0-9, underscore and dot. -/
def allowedChar (c : Char) : Bool :=
  (('A' ≤ c && c ≤ 'Z') || ('a' ≤ c && c ≤ 'z') || ('0' ≤ c && c ≤ '9')
    || c = '_' || c = '.')

/-- If p is a prefix of s, return the remainder of s after p. -/
def takeAfter : List Char → List Char → Option (List Char)
  | [], s => some s
  | _ :: _, [] => none
  | a :: ps, b :: ss => if a = b then takeAfter ps ss else none

/-- Embedding of re.match with the pattern
(?:https?://)?(?:www\.)?tiktok\.com/@([A-Za-z0-9_.]+) at line 16 of the
source: an optional scheme, an optional www., the literal host marker,
then an at sign and the captured greedy run of allowed characters.  The
option alternatives are prefix-exclusive, so the greedy left-to-right
strategy coincides with backtracking regex matching. -/
def urlExtract (line : String) : Option String :=
  let l0 := line.toList
  let l1 :=
    match takeAfter ("https://".toList) l0 with
    | some r => r
    | none =>
      match takeAfter ("http://".toList) l0 with
      | some r => r
      | none => l0
  let l2 :=
    match takeAfter ("www.".toList) l1 with
    | some r => r
    | none => l1
  match takeAfter ("tiktok.com/@".toList) l2 with
  | none => none
  | some rest =>
    let run := rest.takeWhile allowedChar
    if run.isEmpty then none else some (String.mk run)

/-- Embedding of re.match with the fully anchored pattern
^[A-Za-z0-9_.]+$ at line 27 of the source: the whole line is a nonempty
run of allowed characters. -/
def isBareUsername (line : String) : Bool :=
  !line.toList.isEmpty && line.toList.all allowedChar

/-- Python str.strip: drop whitespace from both ends. -/
def pyStrip (s : String) : String :=
  String.mk
    (((s.toList.dropWhile Char.isWhitespace).reverse.dropWhile
      Char.isWhitespace).reverse)

/-- Embedding of extract_tiktok_usernames (source lines 12-33): each
line is stripped, blank lines are skipped, a URL-grammar match
contributes its captured run to the valid list, otherwise a
bare-identifier match contributes the stripped line, otherwise the
stripped line is recorded as invalid. -/
def extract_tiktok_usernames : List String → List String × List String
  | [] => ([], [])
  | line :: rest =>
    let l := pyStrip line
    let t := extract_tiktok_usernames rest
    if l = "" then t
    else
      match urlExtract l with
      | some u => (u :: t.1, t.2)
      | none =>
        if isBareUsername l then (l :: t.1, t.2) else (t.1, l :: t.2)

/-- Per-line outcome feeding the valid list: the captured username when
the URL grammar matches, the trimmed line when the bare grammar matches,
nothing otherwise. -/
def lineValid (line : String) : Option String :=
  let l := pyStrip line
  if l = "" then none
  else
    match urlExtract l with
    | some u => some u
    | none => if isBareUsername l then some l else none

/-- Per-line outcome feeding the invalid list: the trimmed line when
both grammars fail. -/
def lineInvalid (line : String) : Option String :=
  let l := pyStrip line
  if l = "" then none
  else
    match urlExtract l with
    | some _ => none
    | none => if isBareUsername l then none else some l

/-- A line that strips to the empty string and is silently dropped. -/
def isBlank (line : String) : Bool := pyStrip line = ""

/-- A cell of the tabular dataset: null (NaN or missing), an integer, a
float, or a string. -/
inductive Value where
  | null : Value
  | int : Int → Value
  | float : Rat → Value
  | str : String → Value
deriving DecidableEq

/-- A dataset row with the six required fields.  The phone field is a
string because load_csv_data reads the phone column with dtype str and
query_database applies str() before normalizing. -/
structure Row where
  username : String
  unit_sold_last_30_days : Value
  category : Value
  brand : Value
  phone : String
  email : Value
deriving DecidableEq

/-- The dataset: the declared column names (checked by schema
validation) and the parsed rows. -/
structure DataFrame where
  columns : List String
  rows : List Row
deriving DecidableEq

/-- One output record of query_database. -/
structure QueryResult where
  recordNo : Nat
  username : String
  unit_sold_last_30_days : Value
  category : Value
  brand : Value
  phone : Value
  email : Value
deriving DecidableEq

/-- The literal sentinel used for absent or unusable fields. -/
def sentinel : Value := Value.str "Not found"

/-- The required column list of query_database (source lines 57-59). -/
def requiredColumns : List String :=
  ["username", "unit_sold_last_30_days", "% category", "brand", "phone", "email"]

/-- Embedding of the list comprehension at source line 62: the required
columns absent from the dataset, in required-column order. -/
def missingColumns (df : DataFrame) : List String :=
  requiredColumns.filter (fun c => !(df.columns.contains c))

/-- Python str.zfill on a character list: pad with zeros on the left up
to the requested width. -/
def zfillL (n : Nat) (l : List Char) : List Char :=
  List.replicate (n - l.length) '0' ++ l

/-- Python s[-n:] on a character list: the last n characters. -/
def lastN (n : Nat) (l : List Char) : List Char :=
  l.drop (l.length - n)

/-- The digits kept by re.sub at source line 77. -/
def digitsOf (l : List Char) : List Char :=
  l.filter Char.isDigit

/-- The conditional zero at source lines 79-80: prepend a zero unless
the list already starts with one (an empty list gets the zero, matching
Python startswith on the empty string). -/
def prependZero (l : List Char) : List Char :=
  if l.head? = some '0' then l else '0' :: l

/-- Embedding of the phone normalization at source lines 75-81: strip
non-digits, conditionally prepend a zero, take the last 10 characters
and pad on the left with zeros to width 10. -/
def normalizePhone (s : String) : String :=
  String.mk (zfillL 10 (lastN 10 (prependZero (digitsOf s.toList))))

/-- Python int() truncation toward zero on a rational. -/
def pyTrunc (q : Rat) : Int :=
  if 0 ≤ q then q.floor else -((-q).floor)

/-- Embedding of the unit-sold coercion at source lines 84-88: an int
or float cell is coerced to an integer, anything else (null via
pd.notnull, or a string failing the isinstance check) becomes the
sentinel. -/
def coerceUnits (v : Value) : Value :=
  match v with
  | Value.int n => Value.int n
  | Value.float q => Value.int (pyTrunc q)
  | _ => sentinel

/-- The record built for a merged row with no dataset match (source
lines 102-110): every field carries the sentinel. -/
def notFoundResult (k : Nat) (u : String) : QueryResult :=
  ⟨k, u, sentinel, sentinel, sentinel, sentinel, sentinel⟩

/-- The record built for a matched merged row (source lines 90-98). -/
def matchedResult (k : Nat) (u : String) (r : Row) : QueryResult :=
  ⟨k, u, coerceUnits r.unit_sold_last_30_days, r.category, r.brand,
    Value.str (normalizePhone r.phone), r.email⟩

/-- Embedding of the pandas left merge at source line 70: every
username of the left side in input order; a username with no matching
row yields one unmatched entry, a username with matching rows yields
one entry per match in dataset order. -/
def mergeRows (usernames : List String) (rows : List Row) :
    List (String × Option Row) :=
  usernames.flatMap (fun u =>
    match rows.filter (fun r => r.username == u) with
    | [] => [(u, none)]
    | ms => ms.map (fun r => (u, some r)))

/-- Embedding of the loop at source lines 72-110 over the merged rows,
carrying the running 0-based position used for the Record number:
returns the result list, the not-found count and the not-found
username list. -/
def processMerged : Nat → List (String × Option Row) →
    List QueryResult × Nat × List String
  | _, [] => ([], 0, [])
  | i, (u, none) :: rest =>
    let t := processMerged (i + 1) rest
    (notFoundResult (i + 1) u :: t.1, t.2.1 + 1, u :: t.2.2)
  | i, (u, some r) :: rest =>
    let t := processMerged (i + 1) rest
    (matchedResult (i + 1) u r :: t.1, t.2.1, t.2.2)

/-- The value returned by query_database, together with the
missing-column message surfaced through st.error on the schema path. -/
structure QueryOutput where
  error : Option (List String)
  results : List QueryResult
  notFoundCount : Nat
  notFound : List String
deriving DecidableEq

/-- Embedding of query_database (source lines 50-112): on missing
columns it reports them and returns no results, a not-found count equal
to the number of usernames and an empty not-found list; otherwise it
processes the left merge of the usernames against the rows. -/
def query_database (usernames : List String) (df : DataFrame) : QueryOutput :=
  let missing := missingColumns df
  if missing.isEmpty then
    let t := processMerged 0 (mergeRows usernames df.rows)
    ⟨none, t.1, t.2.1, t.2.2⟩
  else
    ⟨some missing, [], usernames.length, []⟩

/-- A dataset row keyed by the username a, first of a duplicated pair. -/
def rowDupA : Row :=
  ⟨"a", Value.int 5, Value.str "cat1", Value.str "brand1", "0712345678",
    Value.str "a1@x"⟩

/-- A dataset row keyed by the username a, second of a duplicated pair. -/
def rowDupB : Row :=
  ⟨"a", Value.int 6, Value.str "cat2", Value.str "brand2", "0712345679",
    Value.str "a2@x"⟩

/-- A schema-valid dataset holding two rows with the same username key,
used against C1. -/
def dfDupC1 : DataFrame := ⟨requiredColumns, [rowDupA, rowDupB]⟩

/-- A schema-valid dataset holding two rows with the same username key,
used against C3. -/
def dfDupC3 : DataFrame := ⟨requiredColumns, [rowDupA, rowDupB]⟩

/-- A schema-valid dataset with a single row, used for the C1 witness. -/
def dfOneC1 : DataFrame := ⟨requiredColumns, [rowDupA]⟩

/-- The row of Example 4 of the spec: its phone number strips to 11
digits, so the normalized phone cannot keep a leading zero. -/
def rowPhoneC4 : Row :=
  ⟨"jane_doe99", Value.float 12, Value.str "cat", Value.str "brand",
    "+27-71-234-5678", Value.str "jane@x"⟩

/-- A schema-valid dataset holding the Example 4 row, used against C4. -/
def dfPhoneC4 : DataFrame := ⟨requiredColumns, [rowPhoneC4]⟩

/-- A dataset whose column list lacks brand, used for the C5 witness. -/
def dfNoBrandC5 : DataFrame :=
  ⟨["username", "unit_sold_last_30_days", "% category", "phone", "email"], []⟩

/-- A dataset whose column list lacks brand and email, used for the C10
witness. -/
def dfNoBrandC10 : DataFrame :=
  ⟨["username", "unit_sold_last_30_days", "% category", "phone"], []⟩

/-- A schema-valid one-row dataset used for the C8 witness: the queried
username has no matching row. -/
def dfMissC8 : DataFrame := ⟨requiredColumns, [rowDupA]⟩

theorem processMerged_results_length (m : List (String × Option Row)) :
    ∀ i : Nat, (processMerged i m).1.length = m.length := by
  induction m with
  | nil => intro i; rfl
  | cons p rest ih =>
    intro i
    rcases p with ⟨u, _ | r⟩ <;> simp [processMerged, ih]

theorem processMerged_username (m : List (String × Option Row)) :
    ∀ i : Nat, (processMerged i m).1.map QueryResult.username = m.map Prod.fst := by
  induction m with
  | nil => intro i; rfl
  | cons p rest ih =>
    intro i
    rcases p with ⟨u, _ | r⟩ <;>
      simp [processMerged, ih, notFoundResult, matchedResult]

theorem processMerged_count (m : List (String × Option Row)) :
    ∀ i : Nat, (processMerged i m).2.1 = (m.filter (fun p => p.2.isNone)).length := by
  induction m with
  | nil => intro i; rfl
  | cons p rest ih =>
    intro i
    rcases p with ⟨u, _ | r⟩ <;> simp [processMerged, ih, List.filter_cons]

theorem processMerged_notFound (m : List (String × Option Row)) :
    ∀ i : Nat,
      (processMerged i m).2.2 = (m.filter (fun p => p.2.isNone)).map Prod.fst := by
  induction m with
  | nil => intro i; rfl
  | cons p rest ih =>
    intro i
    rcases p with ⟨u, _ | r⟩ <;> simp [processMerged, ih, List.filter_cons]

theorem processMerged_recordNo (m : List (String × Option Row)) :
    ∀ (i j : Nat) (h : j < (processMerged i m).1.length),
      ((processMerged i m).1.get ⟨j, h⟩).recordNo = i + j + 1 := by
  induction m with
  | nil => intro i j h; simp [processMerged] at h
  | cons p rest ih =>
    intro i j h
    rcases p with ⟨u, _ | r⟩ <;>
    · cases j with
      | zero => simp [processMerged, notFoundResult, matchedResult]
      | succ j =>
        simp only [processMerged, List.get_cons_succ]
        rw [ih]
        omega

theorem processMerged_mem (res : QueryResult) (m : List (String × Option Row)) :
    ∀ i : Nat, res ∈ (processMerged i m).1 →
      (∃ k u, res = notFoundResult k u ∧ (u, none) ∈ m) ∨
      (∃ k u r, res = matchedResult k u r ∧ (u, some r) ∈ m) := by
  induction m with
  | nil => intro i h; simp [processMerged] at h
  | cons p rest ih =>
    intro i h
    rcases p with ⟨u, _ | r⟩
    · simp only [processMerged, List.mem_cons] at h
      rcases h with h | h
      · exact Or.inl ⟨i + 1, u, h, by simp⟩
      · rcases ih (i + 1) h with ⟨k, v, hv, hm⟩ | ⟨k, v, r, hv, hm⟩
        · exact Or.inl ⟨k, v, hv, by simp [hm]⟩
        · exact Or.inr ⟨k, v, r, hv, by simp [hm]⟩
    · simp only [processMerged, List.mem_cons] at h
      rcases h with h | h
      · exact Or.inr ⟨i + 1, u, r, h, by simp⟩
      · rcases ih (i + 1) h with ⟨k, v, hv, hm⟩ | ⟨k, v, r2, hv, hm⟩
        · exact Or.inl ⟨k, v, hv, by simp [hm]⟩
        · exact Or.inr ⟨k, v, r2, hv, by simp [hm]⟩

theorem processMerged_allMatched (u : String) (ms : List Row) :
    ∀ i : Nat,
      processMerged i (ms.map (fun r => (u, some r))) =
        ((ms.enumFrom i).map (fun p => matchedResult (p.1 + 1) u p.2), 0, []) := by
  induction ms with
  | nil => intro i; rfl
  | cons r rest ih =>
    intro i
    simp [processMerged, List.enumFrom_cons, ih]

theorem mergeRows_cons (u : String) (us : List String) (rows : List Row) :
    mergeRows (u :: us) rows =
      (match rows.filter (fun r => r.username == u) with
        | [] => [(u, none)]
        | ms => ms.map (fun r => (u, some r))) ++ mergeRows us rows := by
  simp [mergeRows, List.flatMap_cons]

theorem mergeRows_map_fst_of_unique (rows : List Row) :
    ∀ us : List String,
      (∀ u ∈ us, (rows.filter (fun r => r.username == u)).length ≤ 1) →
      (mergeRows us rows).map Prod.fst = us := by
  intro us
  induction us with
  | nil => intro _; rfl
  | cons u rest ih =>
    intro h
    have hu : (rows.filter (fun r => r.username == u)).length ≤ 1 :=
      h u (by simp)
    have hrest : ∀ v ∈ rest,
        (rows.filter (fun r => r.username == v)).length ≤ 1 :=
      fun v hv => h v (List.mem_cons_of_mem _ hv)
    rw [mergeRows_cons, List.map_append, ih hrest]
    cases hms : rows.filter (fun r => r.username == u) with
    | nil => simp
    | cons m tail =>
      rw [hms] at hu
      have : tail = [] := by
        cases tail with
        | nil => rfl
        | cons x xs => simp at hu
      subst this
      simp

theorem mergeRows_filter_none (rows : List Row) :
    ∀ us : List String,
      (mergeRows us rows).filter (fun p => p.2.isNone) =
        (us.filter
          (fun u => (rows.filter (fun r => r.username == u)).isEmpty)).map
          (fun u => (u, (none : Option Row))) := by
  intro us
  induction us with
  | nil => rfl
  | cons u rest ih =>
    rw [mergeRows_cons, List.filter_append, ih, List.filter_cons]
    cases hms : rows.filter (fun r => r.username == u) with
    | nil => simp
    | cons m tail =>
      have h1 : ((m :: tail).map (fun r => (u, some r))).filter
          (fun p => p.2.isNone) = [] := by
        rw [List.filter_map]
        simp [Function.comp]
      simp [h1]

theorem mergeRows_mem_some (rows : List Row) (u : String) (r : Row) :
    ∀ us : List String, (u, some r) ∈ mergeRows us rows →
      r ∈ rows.filter (fun x => x.username == u) := by
  intro us
  induction us with
  | nil => intro h; simp [mergeRows] at h
  | cons v rest ih =>
    intro h
    rw [mergeRows_cons, List.mem_append] at h
    rcases h with h | h
    · cases hms : rows.filter (fun x => x.username == v) with
      | nil =>
        rw [hms] at h
        simp at h
      | cons m tail =>
        rw [hms] at h
        rw [List.mem_map] at h
        obtain ⟨x, hx, hxe⟩ := h
        have hv : v = u := congrArg Prod.fst hxe
        have hr : x = r := by
          have := congrArg Prod.snd hxe
          simpa using this
        subst hv hr
        rw [hms] at *
        exact hx
    · exact ih h

/-- C7: the extractor partitions its input: the valid and invalid lists
are order-preserving selections of the lines (expressed as filterMap
images), and their lengths plus the number of blank lines add up to the
number of input lines. -/
theorem extract_partition (inputs : List String) :
    (extract_tiktok_usernames inputs).1 = inputs.filterMap lineValid ∧
    (extract_tiktok_usernames inputs).2 = inputs.filterMap lineInvalid ∧
    (extract_tiktok_usernames inputs).1.length
      + (extract_tiktok_usernames inputs).2.length
      + inputs.countP isBlank = inputs.length := by
  induction inputs with
  | nil => exact ⟨rfl, rfl, rfl⟩
  | cons line rest ih =>
    obtain ⟨ih1, ih2, ih3⟩ := ih
    by_cases hb : pyStrip line = ""
    · refine ⟨?_, ?_, ?_⟩
      · simp [extract_tiktok_usernames, lineValid, hb, List.filterMap_cons, ih1]
      · simp [extract_tiktok_usernames, lineInvalid, hb, List.filterMap_cons,
          ih2]
      · simp [extract_tiktok_usernames, isBlank, hb, List.countP_cons]
        omega
    · cases hu : urlExtract (pyStrip line) with
      | some u =>
        refine ⟨?_, ?_, ?_⟩
        · simp [extract_tiktok_usernames, lineValid, hb, hu,
            List.filterMap_cons, ih1]
        · simp [extract_tiktok_usernames, lineInvalid, hb, hu,
            List.filterMap_cons, ih2]
        · simp [extract_tiktok_usernames, isBlank, hb, hu, List.countP_cons]
          omega
      | none =>
        by_cases hbare : isBareUsername (pyStrip line) = true
        · refine ⟨?_, ?_, ?_⟩
          · simp [extract_tiktok_usernames, lineValid, hb, hu, hbare,
              List.filterMap_cons, ih1]
          · simp [extract_tiktok_usernames, lineInvalid, hb, hu, hbare,
              List.filterMap_cons, ih2]
          · simp [extract_tiktok_usernames, isBlank, hb, hu, hbare,
              List.countP_cons]
            omega
        · refine ⟨?_, ?_, ?_⟩
          · simp [extract_tiktok_usernames, lineValid, hb, hu, hbare,
              List.filterMap_cons, ih1]
          · simp [extract_tiktok_usernames, lineInvalid, hb, hu, hbare,
              List.filterMap_cons, ih2]
          · simp [extract_tiktok_usernames, isBlank, hb, hu, hbare,
              List.countP_cons]
            omega

/-- C2 counterexample: the host-only lines tiktok.com and
www.tiktok.com are appended to the valid list, not the invalid one, so
the invalid list stays empty. -/
theorem hostOnly_counterexample :
    (extract_tiktok_usernames ["tiktok.com", "www.tiktok.com"]).2 = [] ∧
    (extract_tiktok_usernames ["tiktok.com", "www.tiktok.com"]).1 =
      ["tiktok.com", "www.tiktok.com"] := by
  constructor <;> decide

/-- C2 amended: a line whose stripped form fails the URL grammar but
consists of one or more allowed characters (as every dot-separated bare
host does) is classified as valid, not invalid. -/
theorem hostOnly_classified_valid (line : String)
    (h1 : urlExtract (pyStrip line) = none)
    (h2 : isBareUsername (pyStrip line) = true) :
    extract_tiktok_usernames [line] = ([pyStrip line], []) := by
  have hne : pyStrip line ≠ "" := by
    intro h
    rw [h] at h2
    exact absurd h2 (by decide)
  simp [extract_tiktok_usernames, hne, h1, h2]

/-- C2 amended witness at the host-only line tiktok.com. -/
theorem hostOnly_classified_valid_witness :
    urlExtract (pyStrip "tiktok.com") = none ∧
    isBareUsername (pyStrip "tiktok.com") = true ∧
    extract_tiktok_usernames ["tiktok.com"] = ([pyStrip "tiktok.com"], []) :=
  ⟨by decide, by decide,
    hostOnly_classified_valid "tiktok.com" (by decide) (by decide)⟩

/-- C1 counterexample: a schema-valid dataset with a duplicated
username key makes the left merge emit one result per matching row, so
a single input identifier yields two QueryResults. -/
theorem result_count_counterexample :
    (query_database ["a"] dfDupC1).results.length = 2 ∧
    ["a"].length = 1 ∧
    (query_database ["a"] dfDupC1).results.length ≠ ["a"].length := by
  refine ⟨by decide, rfl, by decide⟩

/-- C1 amended: when the dataset passes schema validation and each
input identifier matches at most one dataset row, query_database
returns exactly one QueryResult per identifier, in input order, and
each Record number is the 1-based position in the output sequence. -/
theorem result_count_order (us : List String) (df : DataFrame)
    (h1 : missingColumns df = [])
    (h2 : ∀ u ∈ us, (df.rows.filter (fun r => r.username == u)).length ≤ 1) :
    (query_database us df).results.length = us.length ∧
    (query_database us df).results.map QueryResult.username = us ∧
    ∀ (j : Nat) (h : j < (query_database us df).results.length),
      ((query_database us df).results.get ⟨j, h⟩).recordNo = j + 1 := by
  have hfst : (mergeRows us df.rows).map Prod.fst = us :=
    mergeRows_map_fst_of_unique df.rows us h2
  have hlen : (mergeRows us df.rows).length = us.length := by
    have := congrArg List.length hfst
    simpa using this
  have hres : (query_database us df).results =
      (processMerged 0 (mergeRows us df.rows)).1 := by
    simp [query_database, h1]
  refine ⟨?_, ?_, ?_⟩
  · rw [hres, processMerged_results_length, hlen]
  · rw [hres, processMerged_username, hfst]
  · intro j h
    rw [List.get_of_eq hres, processMerged_recordNo]
    simp

/-- C1 amended witness: two identifiers against a one-row dataset with
unique keys. -/
theorem result_count_order_witness :
    missingColumns dfOneC1 = [] ∧
    (query_database ["a", "b"] dfOneC1).results.length = 2 ∧
    (query_database ["a", "b"] dfOneC1).results.map QueryResult.username =
      ["a", "b"] :=
  ⟨by decide,
    by
      rw [(result_count_order ["a", "b"] dfOneC1 (by decide) (by decide)).1]
      rfl,
    (result_count_order ["a", "b"] dfOneC1 (by decide) (by decide)).2.1⟩

/-- C3 counterexample: with two dataset rows sharing the key a, the
query for the single identifier a produces two QueryResults, not one
populated from the first matching row. -/
theorem duplicate_key_counterexample :
    (query_database ["a"] dfDupC3).results.length = 2 ∧
    (query_database ["a"] dfDupC3).results.map QueryResult.brand =
      [Value.str "brand1", Value.str "brand2"] := by
  constructor <;> decide

/-- C3 amended: on a schema-valid dataset holding two or more rows with
the same username key, the query for that identifier emits one
QueryResult per matching row, in dataset order, each populated from its
own row. -/
theorem duplicate_key_all_matches (u : String) (df : DataFrame)
    (h1 : missingColumns df = [])
    (h2 : 2 ≤ (df.rows.filter (fun r => r.username == u)).length) :
    (query_database [u] df).results =
      ((df.rows.filter (fun r => r.username == u)).enum).map
        (fun p => matchedResult (p.1 + 1) u p.2) := by
  have hq : query_database [u] df =
      ⟨none, (processMerged 0 (mergeRows [u] df.rows)).1,
        (processMerged 0 (mergeRows [u] df.rows)).2.1,
        (processMerged 0 (mergeRows [u] df.rows)).2.2⟩ := by
    simp [query_database, h1]
  rw [hq]
  cases hms : df.rows.filter (fun r => r.username == u) with
  | nil => rw [hms] at h2; simp at h2
  | cons m tail =>
    have hmerge : mergeRows [u] df.rows =
        ((m :: tail).map (fun r => (u, some r))) := by
      simp [mergeRows, List.flatMap_cons, hms]
    rw [hmerge]
    have hall := processMerged_allMatched u (m :: tail) 0
    rw [hall]
    rfl

/-- C3 amended witness at the duplicated dataset. -/
theorem duplicate_key_all_matches_witness :
    missingColumns dfDupC3 = [] ∧
    2 ≤ (dfDupC3.rows.filter (fun r => r.username == "a")).length ∧
    (query_database ["a"] dfDupC3).results =
      ((dfDupC3.rows.filter (fun r => r.username == "a")).enum).map
        (fun p => matchedResult (p.1 + 1) "a" p.2) :=
  ⟨by decide, by decide,
    duplicate_key_all_matches "a" dfDupC3 (by decide) (by decide)⟩

theorem prependZero_head (l : List Char) : (prependZero l).head? = some '0' := by
  unfold prependZero
  split
  · assumption
  · rfl

theorem lastN_le (l : List Char) : (lastN 10 l).length ≤ 10 := by
  simp [lastN]
  omega

/-- C4 counterexample: the phone of Example 4 of the spec strips to the
11 digits 27712345678, so after the conditional zero the last-10 slice
starts with 7, not 0; the full query shows the field. -/
theorem phone_leading_counterexample :
    (query_database ["jane_doe99"] dfPhoneC4).results.map QueryResult.phone =
      [Value.str "7712345678"] ∧
    ("7712345678".toList.head? = some '0') = False := by
  constructor
  · decide
  · decide

/-- C4 amended: the phone field of a matched row is exactly the
normalization pipeline of the source, the normalized string always has
exactly 10 characters, and it starts with the digit 0 whenever the
conditionally-prefixed digit string has at most 10 characters (in
particular whenever the raw value strips to at most 9 digits); with
more digits the leading character is whatever digit lands there. -/
theorem phone_normalization (s : String)
    (h : (prependZero (digitsOf s.toList)).length ≤ 10) :
    (∀ (k : Nat) (u : String) (r : Row),
      (matchedResult k u r).phone = Value.str (normalizePhone r.phone)) ∧
    (∀ t : String, (normalizePhone t).length = 10) ∧
    (normalizePhone s).toList.head? = some '0' := by
  refine ⟨fun k u r => rfl, ?_, ?_⟩
  · intro t
    show (zfillL 10 (lastN 10 (prependZero (digitsOf t.toList)))).length = 10
    have h1 := lastN_le (prependZero (digitsOf t.data))
    simp [zfillL]
    omega
  · have hlast : lastN 10 (prependZero (digitsOf s.toList)) =
        prependZero (digitsOf s.toList) := by
      unfold lastN
      have : (prependZero (digitsOf s.toList)).length - 10 = 0 := by omega
      rw [this, List.drop_zero]
    show (zfillL 10 (lastN 10 (prependZero (digitsOf s.toList)))).head? =
      some '0'
    rw [hlast]
    unfold zfillL
    cases hk : 10 - (prependZero (digitsOf s.toList)).length with
    | zero => simpa using prependZero_head (digitsOf s.toList)
    | succ k => simp [List.replicate_succ]

/-- C4 amended witness: a local phone number with 10 digits starting
with 0 keeps its leading zero. -/
theorem phone_normalization_witness :
    (prependZero (digitsOf ("071-234-5678").toList)).length ≤ 10 ∧
    (normalizePhone "071-234-5678").toList.head? = some '0' :=
  ⟨by decide, (phone_normalization "071-234-5678" (by decide)).2.2⟩

/-- C9: the phone normalization is idempotent on canonical outputs: a
10-character all-digit string starting with 0 is returned unchanged. -/
theorem phone_idempotent (s : String)
    (h1 : s.length = 10)
    (h2 : s.toList.all Char.isDigit = true)
    (h3 : s.toList.head? = some '0') :
    normalizePhone s = s := by
  obtain ⟨l⟩ := s
  have hlen : l.length = 10 := h1
  have hd : digitsOf l = l := by
    unfold digitsOf
    rw [List.filter_eq_self]
    intro a ha
    exact List.all_eq_true.mp h2 a ha
  have h3l : l.head? = some '0' := h3
  have hp : prependZero l = l := by
    unfold prependZero
    rw [if_pos h3l]
  have h4 : lastN 10 l = l := by
    unfold lastN
    rw [hlen]
    simp
  have h5 : zfillL 10 l = l := by
    unfold zfillL
    rw [hlen]
    simp
  show String.mk (zfillL 10 (lastN 10 (prependZero (digitsOf l)))) =
    String.mk l
  rw [hd, hp, h4, h5]

/-- C9 witness at the canonical string 0712345678. -/
theorem phone_idempotent_witness :
    ("0712345678" : String).length = 10 ∧
    "0712345678".toList.all Char.isDigit = true ∧
    "0712345678".toList.head? = some '0' ∧
    normalizePhone "0712345678" = "0712345678" :=
  ⟨by decide, by decide, by decide,
    phone_idempotent "0712345678" (by decide) (by decide) (by decide)⟩

theorem missingColumns_isEmpty_false (df : DataFrame)
    (h : missingColumns df ≠ []) : (missingColumns df).isEmpty = false := by
  cases hmc : missingColumns df with
  | nil => exact absurd hmc h
  | cons a l => rfl

/-- C5: a dataset missing required columns makes query_database report
exactly the missing column names and return zero QueryResults, whatever
the identifier list holds. -/
theorem schema_error_no_results (us : List String) (df : DataFrame)
    (h : missingColumns df ≠ []) :
    (query_database us df).error = some (missingColumns df) ∧
    (query_database us df).results = [] := by
  have hb := missingColumns_isEmpty_false df h
  constructor <;> simp [query_database, hb]

/-- C5 witness: a dataset without the brand column, queried with two
identifiers. -/
theorem schema_error_no_results_witness :
    missingColumns dfNoBrandC5 = ["brand"] ∧
    (query_database ["a", "b"] dfNoBrandC5).error = some ["brand"] ∧
    (query_database ["a", "b"] dfNoBrandC5).results = [] := by
  refine ⟨by decide, ?_, (schema_error_no_results ["a", "b"] dfNoBrandC5 (by decide)).2⟩
  have h := (schema_error_no_results ["a", "b"] dfNoBrandC5 (by decide)).1
  rw [h]
  decide

/-- C10: on schema failure with a non-empty identifier list the
returned summary is internally inconsistent: the not-found count equals
the number of identifiers while the not-found list is empty, so the
count differs from the length of the list it is supposed to count. -/
theorem schema_error_inconsistent_summary (us : List String) (df : DataFrame)
    (h1 : us ≠ []) (h2 : missingColumns df ≠ []) :
    (query_database us df).notFoundCount = us.length ∧
    (query_database us df).notFound = [] ∧
    (query_database us df).notFoundCount ≠
      (query_database us df).notFound.length := by
  have hb := missingColumns_isEmpty_false df h2
  have hlen : us.length ≠ 0 := by
    intro h
    exact h1 (List.length_eq_zero.mp h)
  refine ⟨by simp [query_database, hb], by simp [query_database, hb], ?_⟩
  simpa [query_database, hb] using hlen

/-- C10 witness: two identifiers against a dataset missing brand and
email. -/
theorem schema_error_inconsistent_summary_witness :
    (["x", "y"] : List String) ≠ [] ∧
    missingColumns dfNoBrandC10 ≠ [] ∧
    (query_database ["x", "y"] dfNoBrandC10).notFoundCount = 2 ∧
    (query_database ["x", "y"] dfNoBrandC10).notFound = [] :=
  ⟨by decide, by decide,
    (schema_error_inconsistent_summary ["x", "y"] dfNoBrandC10 (by decide)
      (by decide)).1,
    (schema_error_inconsistent_summary ["x", "y"] dfNoBrandC10 (by decide)
      (by decide)).2.1⟩

/-- C6: the unit-sold field of a matched row is the coercion of the raw
cell: integers stay themselves, floats are truncated to an integer (so
both 42 and 42.0 give 42), and null or string cells give the sentinel
Not found. -/
theorem unit_sold_coercion :
    (∀ (k : Nat) (u : String) (r : Row),
      (matchedResult k u r).unit_sold_last_30_days =
        coerceUnits r.unit_sold_last_30_days) ∧
    (∀ n : Int, coerceUnits (Value.int n) = Value.int n) ∧
    (∀ q : Rat, coerceUnits (Value.float q) = Value.int (pyTrunc q)) ∧
    coerceUnits (Value.float 42) = Value.int 42 ∧
    coerceUnits Value.null = Value.str "Not found" ∧
    (∀ s : String, coerceUnits (Value.str s) = Value.str "Not found") :=
  ⟨fun k u r => rfl, fun n => rfl, fun q => rfl, by decide, rfl, fun s => rfl⟩

theorem mergeRows_mem_none (rows : List Row) :
    ∀ (us : List String) (u : String), u ∈ us →
      rows.filter (fun r => r.username == u) = [] →
      (u, (none : Option Row)) ∈ mergeRows us rows := by
  intro us
  induction us with
  | nil =>
    intro u hu _
    simp at hu
  | cons v rest ih =>
    intro u hu hempty
    rw [mergeRows_cons, List.mem_append]
    rcases List.mem_cons.mp hu with hv | hr
    · subst hv
      rw [hempty]
      left
      simp
    · right
      exact ih u hr hempty

theorem processMerged_mem_none (m : List (String × Option Row)) :
    ∀ (i : Nat) (u : String), (u, (none : Option Row)) ∈ m →
      ∃ k, notFoundResult k u ∈ (processMerged i m).1 := by
  induction m with
  | nil =>
    intro i u hu
    simp at hu
  | cons p rest ih =>
    intro i u hu
    rcases p with ⟨v, o⟩
    rcases List.mem_cons.mp hu with he | hr
    · have h1 : u = v := congrArg Prod.fst he
      have h2 : (none : Option Row) = o := congrArg Prod.snd he
      subst h1
      subst h2
      exact ⟨i + 1, by simp [processMerged]⟩
    · cases o with
      | none =>
        obtain ⟨k, hk⟩ := ih (i + 1) u hr
        exact ⟨k, List.mem_cons_of_mem _ hk⟩
      | some r =>
        obtain ⟨k, hk⟩ := ih (i + 1) u hr
        exact ⟨k, List.mem_cons_of_mem _ hk⟩

/-- C8: under a schema-valid dataset no error is raised, the not-found
list is exactly the input-order sublist of identifiers without a
matching row, the not-found counter counts that list, for every
identifier without a matching row a QueryResult is still produced
carrying that identifier and the sentinel in all five output fields,
and every produced QueryResult whose identifier has no matching row
carries the sentinel in all five output fields. -/
theorem miss_handling (us : List String) (df : DataFrame)
    (h : missingColumns df = []) :
    (query_database us df).error = none ∧
    (query_database us df).notFound =
      us.filter
        (fun u => (df.rows.filter (fun r => r.username == u)).isEmpty) ∧
    (query_database us df).notFoundCount =
      (query_database us df).notFound.length ∧
    (∀ u ∈ us,
      (df.rows.filter (fun r => r.username == u)).isEmpty = true →
        ∃ res ∈ (query_database us df).results,
          res.username = u ∧ res.unit_sold_last_30_days = sentinel ∧
          res.category = sentinel ∧ res.brand = sentinel ∧
          res.phone = sentinel ∧ res.email = sentinel) ∧
    ∀ res ∈ (query_database us df).results,
      (df.rows.filter (fun r => r.username == res.username)).isEmpty = true →
        res.unit_sold_last_30_days = sentinel ∧ res.category = sentinel ∧
        res.brand = sentinel ∧ res.phone = sentinel ∧ res.email = sentinel := by
  have herr : (query_database us df).error = none := by
    simp [query_database, h]
  have hres : (query_database us df).results =
      (processMerged 0 (mergeRows us df.rows)).1 := by
    simp [query_database, h]
  have hnf : (query_database us df).notFound =
      (processMerged 0 (mergeRows us df.rows)).2.2 := by
    simp [query_database, h]
  have hcnt : (query_database us df).notFoundCount =
      (processMerged 0 (mergeRows us df.rows)).2.1 := by
    simp [query_database, h]
  have hnfval : (query_database us df).notFound =
      us.filter
        (fun u => (df.rows.filter (fun r => r.username == u)).isEmpty) := by
    rw [hnf, processMerged_notFound, mergeRows_filter_none, List.map_map]
    have : (Prod.fst ∘ fun u : String => (u, (none : Option Row))) = id := by
      funext u
      rfl
    rw [this, List.map_id]
  refine ⟨herr, hnfval, ?_, ?_, ?_⟩
  · rw [hcnt, hnfval, processMerged_count, mergeRows_filter_none]
    simp
  · intro u hu hmiss
    have hempty : df.rows.filter (fun r => r.username == u) = [] :=
      List.isEmpty_iff.mp hmiss
    obtain ⟨k, hk⟩ := processMerged_mem_none (mergeRows us df.rows) 0 u
      (mergeRows_mem_none df.rows us u hu hempty)
    refine ⟨notFoundResult k u, ?_, rfl, rfl, rfl, rfl, rfl, rfl⟩
    rw [hres]
    exact hk
  · intro res hmem hmiss
    rw [hres] at hmem
    rcases processMerged_mem res (mergeRows us df.rows) 0 hmem with
      ⟨k, u, hv, _⟩ | ⟨k, u, r, hv, hm⟩
    · subst hv
      exact ⟨rfl, rfl, rfl, rfl, rfl⟩
    · exfalso
      have hru : res.username = u := by rw [hv]; rfl
      rw [hru] at hmiss
      have hempty : df.rows.filter (fun r => r.username == u) = [] :=
        List.isEmpty_iff.mp hmiss
      have hrin := mergeRows_mem_some df.rows u r us hm
      rw [hempty] at hrin
      simp at hrin

/-- C8 witness: the identifier ghost has no row in the one-row dataset;
a QueryResult is still produced for it, with every field the sentinel,
it lands in the not-found list and no error is raised. -/
theorem miss_handling_witness :
    missingColumns dfMissC8 = [] ∧
    (dfMissC8.rows.filter (fun r => r.username == "ghost")).isEmpty = true ∧
    (query_database ["ghost"] dfMissC8).results =
      [notFoundResult 1 "ghost"] ∧
    (query_database ["ghost"] dfMissC8).error = none ∧
    (query_database ["ghost"] dfMissC8).notFound =
      (["ghost"] : List String).filter
        (fun u => (dfMissC8.rows.filter (fun r => r.username == u)).isEmpty) :=
  ⟨by decide, by decide, by decide,
    (miss_handling ["ghost"] dfMissC8 (by decide)).1,
    (miss_handling ["ghost"] dfMissC8 (by decide)).2.1⟩
